import Mathlib

/-!
Shallow embedding of the Digiforge temperature anomaly detector
(src/Warning_system.py and src/temperature.py).

Readings and window contents are modelled as rationals (exact real
semantics of the arithmetic the Python code performs on floats);
`statistics.stdev` takes a square root, so the standard deviation and
z-score live in `ℝ` via `Real.sqrt`, and the branches of
`detect_anomaly` that compare them use classical decidability.
Python's `round(x, 2)` is modelled as rounding `100*x` to the nearest
integer and dividing by 100 (Python uses round-half-even at exact
midpoints; no property below touches a midpoint).
-/

/-- WINDOW_SIZE = 10 (both files). -/
def WINDOW_SIZE : ℕ := 10

/-- TEMP_THRESHOLD = 75 (both files). -/
def TEMP_THRESHOLD : ℚ := 75

/-- Z_SCORE_LIMIT = 2.5 (both files). -/
def Z_SCORE_LIMIT : ℚ := 2.5

/-- `collections.deque(maxlen=cap)`: appending to a full deque evicts the
oldest (leftmost) element.  `readings.append(temp)` on a deque of maxlen
`cap`. -/
def dequeAppend (cap : ℕ) (d : List ℚ) (v : ℚ) : List ℚ :=
  if d.length < cap then d ++ [v] else d.tail ++ [v]

/-- `statistics.mean(readings)`: arithmetic mean, sum divided by count. -/
def mean (xs : List ℚ) : ℚ := xs.sum / (xs.length : ℚ)

/-- The sum of squared deviations from the mean, the numerator of
`statistics.stdev`'s variance. -/
def sqDevSum (xs : List ℚ) : ℚ := (xs.map (fun x => (x - mean xs) ^ 2)).sum

/-- Bessel-corrected sample variance, `statistics.stdev(readings) ** 2`:
sum of squared deviations divided by `n - 1`. -/
def sampleVariance (xs : List ℚ) : ℚ := sqDevSum xs / ((xs.length : ℚ) - 1)

/-- `statistics.stdev(readings)`: square root of the Bessel-corrected
sample variance. -/
noncomputable def stdev (xs : List ℚ) : ℝ := Real.sqrt ((sampleVariance xs : ℚ) : ℝ)

/-- `z_score = (temp - mean) / stdev` as computed in both files. -/
noncomputable def z_score (xs : List ℚ) (temp : ℚ) : ℝ :=
  (((temp : ℚ) : ℝ) - ((mean xs : ℚ) : ℝ)) / stdev xs

/-- `round(x, 2)` on a rational. -/
def round2Q (x : ℚ) : ℚ := ((round (100 * x) : ℤ) : ℚ) / 100

/-- `round(x, 2)` on a real. -/
noncomputable def round2R (x : ℝ) : ℝ := ((round (100 * x) : ℤ) : ℝ) / 100

/-- The anomaly dict built by `detect_anomaly` in both files:
`machine_id`, `temperature`, `z_score` (rounded to 2 places),
`mean_temp` (rounded to 2 places), `anomaly_reason`, `timestamp`
(`time.time()` at evaluation, threaded in as the `now` argument). -/
structure Finding where
  machine_id : String
  temperature : ℚ
  zScore : ℝ
  mean_temp : ℚ
  anomaly_reason : String
  timestamp : ℚ

open Classical in
/-- The shared body of `detect_anomaly` (identical in
src/Warning_system.py lines 25-49 and src/temperature.py lines 39-63),
acting on one machine's window `w`: append `temp` to the deque, return
`(false, none)` when fewer than 5 readings or zero standard deviation,
otherwise flag when `temp > TEMP_THRESHOLD or z_score > Z_SCORE_LIMIT`,
with reason `HIGH_TEMP` if the threshold test holds else
`Z_SCORE_SPIKE`.  Returns the mutated window together with the
`(is_anomaly, finding)` pair. -/
noncomputable def detectCore (now : ℚ) (machine_id : String) (w : List ℚ) (temp : ℚ) :
    List ℚ × Bool × Option Finding :=
  let readings := dequeAppend WINDOW_SIZE w temp
  if readings.length < 5 then
    (readings, false, none)
  else if stdev readings = 0 then
    (readings, false, none)
  else if temp > TEMP_THRESHOLD ∨ z_score readings temp > ((Z_SCORE_LIMIT : ℚ) : ℝ) then
    (readings, true, some
      { machine_id := machine_id
        temperature := temp
        zScore := round2R (z_score readings temp)
        mean_temp := round2Q (mean readings)
        anomaly_reason := if temp > TEMP_THRESHOLD then "HIGH_TEMP" else "Z_SCORE_SPIKE"
        timestamp := now })
  else
    (readings, false, none)

/-- `machine_temp_data`: the per-machine window map.  `none` models a
`machine_id` absent from the dict. -/
def WStore : Type := String → Option (List ℚ)

/-- The window the detector reads for a machine: the stored deque, or a
fresh empty one. -/
def windowOf (st : WStore) (machine_id : String) : List ℚ :=
  (st machine_id).getD []

/-- src/Warning_system.py `detect_anomaly(machine_id, temp)`: if the
machine is not in `machine_temp_data`, a fresh empty deque is created
first; then the shared detection body runs and the mutated window is
stored back.  Returns the updated store and the `(is_anomaly, finding)`
pair. -/
noncomputable def WarningSystem.detect_anomaly (st : WStore) (now : ℚ)
    (machine_id : String) (temp : ℚ) : WStore × Bool × Option Finding :=
  let w := windowOf st machine_id
  let r := detectCore now machine_id w temp
  (fun j => if j = machine_id then some r.1 else st j, r.2.1, r.2.2)

/-- `MACHINES` in src/temperature.py. -/
def MACHINES : List String := ["Lathe_01", "Milling_02", "Drill_03"]

/-- src/temperature.py line 20: `machine_temp_data` pre-populated with an
empty deque for each simulated machine and nothing else. -/
def Temperature.initStore : WStore :=
  fun m => if m ∈ MACHINES then some [] else none

/-- src/temperature.py `detect_anomaly(machine, temp)`: reads
`machine_temp_data[machine]` directly, so a machine absent from the dict
raises `KeyError` (modelled as `Except.error`); otherwise the shared
detection body runs on that machine's window. -/
noncomputable def Temperature.detect_anomaly (st : WStore) (now : ℚ)
    (machine : String) (temp : ℚ) :
    Except String (WStore × Bool × Option Finding) :=
  match st machine with
  | none => Except.error "KeyError"
  | some w =>
      let r := detectCore now machine w temp
      Except.ok (fun j => if j = machine then some r.1 else st j, r.2.1, r.2.2)

/-- JSON-like values appearing in the anomaly/alert dicts. -/
inductive JVal where
  | str : String → JVal
  | num : ℚ → JVal
  | real : ℝ → JVal
  | null : JVal

/-- A Python dict modelled as an association list (first binding wins on
lookup). -/
abbrev JDict : Type := List (String × JVal)

/-- Dict lookup; the modelled call paths only look up keys that are
present, so the `KeyError` case is represented by `JVal.null`. -/
def jget (d : JDict) (k : String) : JVal :=
  (d.lookup k).getD JVal.null

/-- The anomaly dict literal returned by `detect_anomaly` on a positive
classification, as a `JDict`. -/
def findingToDict (f : Finding) : JDict :=
  [("machine_id", JVal.str f.machine_id),
   ("temperature", JVal.num f.temperature),
   ("z_score", JVal.real f.zScore),
   ("mean_temp", JVal.num f.mean_temp),
   ("anomaly_reason", JVal.str f.anomaly_reason),
   ("timestamp", JVal.num f.timestamp)]

/-- `generate_alert(anomaly_data)` (both files): builds the alert dict
with exactly the six keys `type`, `machine`, `temperature`, `z_score`,
`reason`, `timestamp`, reading the corresponding entries of
`anomaly_data`; no other entry of `anomaly_data` is copied. -/
def generate_alert (anomaly_data : JDict) : JDict :=
  [("type", JVal.str "TEMP_ANOMALY"),
   ("machine", jget anomaly_data "machine_id"),
   ("temperature", jget anomaly_data "temperature"),
   ("z_score", jget anomaly_data "z_score"),
   ("reason", jget anomaly_data "anomaly_reason"),
   ("timestamp", jget anomaly_data "timestamp")]

/-- src/Warning_system.py line 78: `{**anomaly_data, "cycle_id": c}` —
the dict passed to `generate_alert` by `process_simulation_output`, the
finding's entries plus a fresh `cycle_id` binding. -/
def mergeCycle (anomaly_data : JDict) (c : JVal) : JDict :=
  anomaly_data ++ [("cycle_id", c)]

/-- The alert `process_simulation_output` emits for a finding `f` whose
originating line carried cycle metadata `c`. -/
def alertOfFinding (f : Finding) (c : JVal) : JDict :=
  generate_alert (mergeCycle (findingToDict f) c)

/-- The timestamp-and-machine-independent part of a finding: reason,
rounded z-score, rounded mean, and temperature. -/
def findingCore (f : Finding) : String × ℝ × ℚ × ℚ :=
  (f.anomaly_reason, f.zScore, f.mean_temp, f.temperature)

/-- One run of the Warning_system processing loop over a list of
`(machine_id, temp)` readings, threading the store and collecting each
call's `(machine_id, is_anomaly, finding)` result.  Timestamps play no
role in state evolution, so the clock is held at 0. -/
noncomputable def runDetect (st : WStore) :
    List (String × ℚ) → WStore × List (String × Bool × Option Finding)
  | [] => (st, [])
  | (id, t) :: rs =>
      let r := WarningSystem.detect_anomaly st 0 id t
      let rest := runDetect r.1 rs
      (rest.1, (id, r.2.1, r.2.2) :: rest.2)

/-! ## Helper lemmas -/

theorem mem_dequeAppend_self (cap : ℕ) (d : List ℚ) (v : ℚ) :
    v ∈ dequeAppend cap d v := by
  unfold dequeAppend; split <;> simp

theorem mean_of_const (xs : List ℚ) (c : ℚ) (hne : xs ≠ [])
    (h : ∀ x ∈ xs, x = c) : mean xs = c := by
  have hlen : (xs.length : ℚ) ≠ 0 := by
    have : 0 < xs.length := List.length_pos.mpr hne
    exact_mod_cast Nat.pos_iff_ne_zero.mp this
  have hsum : xs.sum = xs.length • c := List.sum_eq_card_nsmul xs c h
  unfold mean
  rw [hsum, nsmul_eq_mul, mul_comm, mul_div_assoc, div_self hlen, mul_one]

theorem sampleVariance_of_const (xs : List ℚ) (c : ℚ) (hne : xs ≠ [])
    (h : ∀ x ∈ xs, x = c) : sampleVariance xs = 0 := by
  have hsq : sqDevSum xs = 0 := by
    unfold sqDevSum
    apply List.sum_eq_zero
    intro z hz
    simp only [List.mem_map] at hz
    obtain ⟨x, hx, rfl⟩ := hz
    rw [h x hx, mean_of_const xs c hne h]
    ring
  unfold sampleVariance
  rw [hsq, zero_div]

theorem stdev_of_const (xs : List ℚ) (c : ℚ) (hne : xs ≠ [])
    (h : ∀ x ∈ xs, x = c) : stdev xs = 0 := by
  unfold stdev
  rw [sampleVariance_of_const xs c hne h]
  simp

/-! ## Claims -/

/-- C4: whenever the window after appending the new value holds fewer
than 5 values, detect_anomaly returns `(False, None)` regardless of the
value's magnitude. -/
theorem C4_warmup_floor (now : ℚ) (id : String) (w : List ℚ) (temp : ℚ)
    (h : (dequeAppend WINDOW_SIZE w temp).length < 5) :
    detectCore now id w temp = (dequeAppend WINDOW_SIZE w temp, false, none) := by
  simp only [detectCore]
  rw [if_pos h]

/-- C4 witness: appending 1000 (far above TEMP_THRESHOLD) to an empty
window yields one value, so the verdict is not-anomalous. -/
theorem C4_warmup_floor_witness :
    (1000 : ℚ) > TEMP_THRESHOLD ∧
      (dequeAppend WINDOW_SIZE [] 1000).length < 5 ∧
      detectCore 0 "CNC_Mill_1" ([] : List ℚ) 1000
        = (dequeAppend WINDOW_SIZE [] 1000, false, none) :=
  ⟨by norm_num [TEMP_THRESHOLD], by decide,
    C4_warmup_floor 0 "CNC_Mill_1" [] 1000 (by decide)⟩

/-- C1: with at least 5 values in the appended window, all identical,
detect_anomaly returns `(False, None)`: the zero-stdev early return fires
before the absolute-threshold test. -/
theorem C1_zero_variance_precedence (now : ℚ) (id : String) (w : List ℚ) (temp : ℚ)
    (h5 : 5 ≤ (dequeAppend WINDOW_SIZE w temp).length)
    (hall : ∀ x ∈ dequeAppend WINDOW_SIZE w temp,
      ∀ y ∈ dequeAppend WINDOW_SIZE w temp, x = y) :
    detectCore now id w temp = (dequeAppend WINDOW_SIZE w temp, false, none) := by
  have hne : dequeAppend WINDOW_SIZE w temp ≠ [] := by
    intro hcon
    rw [hcon] at h5
    simp at h5
  have hconst : ∀ x ∈ dequeAppend WINDOW_SIZE w temp, x = temp := fun x hx =>
    hall x hx temp (mem_dequeAppend_self WINDOW_SIZE w temp)
  have hstd : stdev (dequeAppend WINDOW_SIZE w temp) = 0 :=
    stdev_of_const _ temp hne hconst
  simp only [detectCore]
  rw [if_neg (Nat.not_lt.mpr h5), if_pos hstd]

/-- C1 witness: five identical readings of 80 (above TEMP_THRESHOLD = 75)
are classified not-anomalous. -/
theorem C1_zero_variance_precedence_witness :
    (80 : ℚ) > TEMP_THRESHOLD ∧
      detectCore 0 "M2" [80, 80, 80, 80] 80
        = (dequeAppend WINDOW_SIZE [80, 80, 80, 80] 80, false, none) :=
  ⟨by norm_num [TEMP_THRESHOLD],
    C1_zero_variance_precedence 0 "M2" [80, 80, 80, 80] 80 (by decide) (by decide)⟩

/-- C8: a reading at or below TEMP_THRESHOLD with a negative z-score is
never classified anomalous: the z-score test is one-sided. -/
theorem C8_one_sided_z (now : ℚ) (id : String) (w : List ℚ) (temp : ℚ)
    (hT : temp ≤ TEMP_THRESHOLD)
    (hz : z_score (dequeAppend WINDOW_SIZE w temp) temp < 0) :
    (detectCore now id w temp).2.1 = false := by
  simp only [detectCore]
  split_ifs with h1 h2 h3
  · rfl
  · rfl
  · exfalso
    rcases h3 with h3 | h3
    · exact absurd h3 (not_lt.mpr hT)
    · have : ((Z_SCORE_LIMIT : ℚ) : ℝ) > 0 := by norm_num [Z_SCORE_LIMIT]
      exact absurd h3 (not_lt.mpr (le_of_lt (lt_trans hz this)))
  · rfl

theorem detectCore_pos (now : ℚ) (id : String) (w : List ℚ) (temp : ℚ)
    (h5 : ¬ (dequeAppend WINDOW_SIZE w temp).length < 5)
    (hsd : ¬ stdev (dequeAppend WINDOW_SIZE w temp) = 0)
    (hcond : temp > TEMP_THRESHOLD ∨
      z_score (dequeAppend WINDOW_SIZE w temp) temp > ((Z_SCORE_LIMIT : ℚ) : ℝ)) :
    detectCore now id w temp
      = (dequeAppend WINDOW_SIZE w temp, true, some
          { machine_id := id
            temperature := temp
            zScore := round2R (z_score (dequeAppend WINDOW_SIZE w temp) temp)
            mean_temp := round2Q (mean (dequeAppend WINDOW_SIZE w temp))
            anomaly_reason := if temp > TEMP_THRESHOLD then "HIGH_TEMP" else "Z_SCORE_SPIKE"
            timestamp := now }) := by
  simp only [detectCore]
  rw [if_neg h5, if_neg hsd, if_pos hcond]

theorem stdev_ne_zero_of_variance_pos (xs : List ℚ) (h : 0 < sampleVariance xs) :
    ¬ stdev xs = 0 := by
  unfold stdev
  have hpos : (0 : ℝ) < ((sampleVariance xs : ℚ) : ℝ) := by exact_mod_cast h
  exact Real.sqrt_ne_zero'.mpr hpos

/-- C8 witness: a cold reading of 10 against a window around 60 has a
negative z-score and is not flagged. -/
theorem C8_one_sided_z_witness :
    (10 : ℚ) ≤ TEMP_THRESHOLD ∧
      z_score (dequeAppend WINDOW_SIZE [60, 61, 59, 60] 10) 10 < 0 ∧
      (detectCore 0 "M1" [60, 61, 59, 60] 10).2.1 = false := by
  have hrs : dequeAppend WINDOW_SIZE [60, 61, 59, 60] 10 = [60, 61, 59, 60, 10] := by decide
  have hm : mean [(60 : ℚ), 61, 59, 60, 10] = 50 := by norm_num [mean]
  have hv : sampleVariance [(60 : ℚ), 61, 59, 60, 10] = 1001 / 2 := by
    norm_num [sampleVariance, sqDevSum, mean]
  have hz : z_score (dequeAppend WINDOW_SIZE [60, 61, 59, 60] 10) 10 < 0 := by
    rw [hrs]
    unfold z_score stdev
    rw [hm, hv]
    have hpos : (0 : ℝ) < Real.sqrt (((1001 / 2 : ℚ) : ℝ)) :=
      Real.sqrt_pos.mpr (by norm_num)
    apply div_neg_of_neg_of_pos _ hpos
    norm_num
  exact ⟨by norm_num [TEMP_THRESHOLD], hz,
    C8_one_sided_z 0 "M1" [60, 61, 59, 60] 10 (by norm_num [TEMP_THRESHOLD]) hz⟩

/-- C3: if detect_anomaly produced a finding, then a value above
TEMP_THRESHOLD always carries reason HIGH_TEMP, and reason Z_SCORE_SPIKE
occurs only when the threshold test failed and the z-score test held. -/
theorem C3_reason_priority (now : ℚ) (id : String) (w : List ℚ) (temp : ℚ) (f : Finding)
    (h : (detectCore now id w temp).2.2 = some f) :
    (temp > TEMP_THRESHOLD → f.anomaly_reason = "HIGH_TEMP") ∧
    (f.anomaly_reason = "Z_SCORE_SPIKE" →
      ¬ temp > TEMP_THRESHOLD ∧
        z_score (dequeAppend WINDOW_SIZE w temp) temp > ((Z_SCORE_LIMIT : ℚ) : ℝ)) := by
  simp only [detectCore] at h
  by_cases h1 : (dequeAppend WINDOW_SIZE w temp).length < 5
  · rw [if_pos h1] at h
    simp at h
  rw [if_neg h1] at h
  by_cases h2 : stdev (dequeAppend WINDOW_SIZE w temp) = 0
  · rw [if_pos h2] at h
    simp at h
  rw [if_neg h2] at h
  by_cases h3 : temp > TEMP_THRESHOLD ∨
      z_score (dequeAppend WINDOW_SIZE w temp) temp > ((Z_SCORE_LIMIT : ℚ) : ℝ)
  · rw [if_pos h3] at h
    simp only [Option.some.injEq] at h
    subst h
    constructor
    · intro hT
      simp only [if_pos hT]
    · intro hZ
      by_cases hT : temp > TEMP_THRESHOLD
      · exfalso
        simp only [if_pos hT] at hZ
        exact absurd hZ (by decide)
      · exact ⟨hT, h3.resolve_left hT⟩
  · rw [if_neg h3] at h
    simp at h

/-- C3 witness: nine readings of 60 then 100 — the value is above
TEMP_THRESHOLD and its z-score (36/√160 ≈ 2.85) is above Z_SCORE_LIMIT,
and the reason is HIGH_TEMP. -/
theorem C3_reason_priority_witness :
    (100 : ℚ) > TEMP_THRESHOLD ∧
      z_score (dequeAppend WINDOW_SIZE [60, 60, 60, 60, 60, 60, 60, 60, 60] 100) 100
        > ((Z_SCORE_LIMIT : ℚ) : ℝ) ∧
      Finding.anomaly_reason
        { machine_id := "M1"
          temperature := 100
          zScore := round2R (z_score (dequeAppend WINDOW_SIZE [60, 60, 60, 60, 60, 60, 60, 60, 60] 100) 100)
          mean_temp := round2Q (mean (dequeAppend WINDOW_SIZE [60, 60, 60, 60, 60, 60, 60, 60, 60] 100))
          anomaly_reason := if (100 : ℚ) > TEMP_THRESHOLD then "HIGH_TEMP" else "Z_SCORE_SPIKE"
          timestamp := 0 } = "HIGH_TEMP" := by
  have hT : (100 : ℚ) > TEMP_THRESHOLD := by norm_num [TEMP_THRESHOLD]
  have hrs : dequeAppend WINDOW_SIZE [60, 60, 60, 60, 60, 60, 60, 60, 60] 100
      = [60, 60, 60, 60, 60, 60, 60, 60, 60, 100] := by decide
  have hm : mean [(60 : ℚ), 60, 60, 60, 60, 60, 60, 60, 60, 100] = 64 := by norm_num [mean]
  have hv : sampleVariance [(60 : ℚ), 60, 60, 60, 60, 60, 60, 60, 60, 100] = 160 := by
    norm_num [sampleVariance, sqDevSum, mean]
  have hz : z_score (dequeAppend WINDOW_SIZE [60, 60, 60, 60, 60, 60, 60, 60, 60] 100) 100
      > ((Z_SCORE_LIMIT : ℚ) : ℝ) := by
    rw [hrs]
    unfold z_score stdev
    rw [hm, hv]
    have hpos : (0 : ℝ) < Real.sqrt (((160 : ℚ) : ℝ)) := Real.sqrt_pos.mpr (by norm_num)
    have hlt : Real.sqrt (((160 : ℚ) : ℝ)) < 14.4 := by
      rw [show (((160 : ℚ)) : ℝ) = (160 : ℝ) by norm_num]
      exact (Real.sqrt_lt' (by norm_num)).mpr (by norm_num)
    have hnum : (((100 : ℚ) : ℝ) - ((64 : ℚ) : ℝ)) = 36 := by norm_num
    rw [gt_iff_lt, hnum, show ((Z_SCORE_LIMIT : ℚ) : ℝ) = (2.5 : ℝ) by norm_num [Z_SCORE_LIMIT],
      lt_div_iff₀ hpos]
    nlinarith [hpos, hlt]
  have hsd : ¬ stdev (dequeAppend WINDOW_SIZE [60, 60, 60, 60, 60, 60, 60, 60, 60] 100) = 0 := by
    apply stdev_ne_zero_of_variance_pos
    rw [hrs, hv]
    norm_num
  have hsome : (detectCore 0 "M1" [60, 60, 60, 60, 60, 60, 60, 60, 60] 100).2.2
      = some
        { machine_id := "M1"
          temperature := 100
          zScore := round2R (z_score (dequeAppend WINDOW_SIZE [60, 60, 60, 60, 60, 60, 60, 60, 60] 100) 100)
          mean_temp := round2Q (mean (dequeAppend WINDOW_SIZE [60, 60, 60, 60, 60, 60, 60, 60, 60] 100))
          anomaly_reason := if (100 : ℚ) > TEMP_THRESHOLD then "HIGH_TEMP" else "Z_SCORE_SPIKE"
          timestamp := 0 } := by
    rw [detectCore_pos 0 "M1" [60, 60, 60, 60, 60, 60, 60, 60, 60] 100 (by decide) hsd (Or.inl hT)]
  exact ⟨hT, hz,
    (C3_reason_priority 0 "M1" [60, 60, 60, 60, 60, 60, 60, 60, 60] 100 _ hsome).1 hT⟩

/-- C6: on an anomalous classification the finding carries the 2-decimal
rounding of the arithmetic mean of the appended window and of
`(value - mean) / sqrt(sum of squared deviations / (n - 1))` (the
Bessel-corrected sample standard deviation), plus the raw value and the
evaluation timestamp. -/
theorem C6_finding_statistics (now : ℚ) (id : String) (w : List ℚ) (temp : ℚ)
    (h : (detectCore now id w temp).2.1 = true) :
    ∃ f, (detectCore now id w temp).2.2 = some f ∧
      f.mean_temp = round2Q ((dequeAppend WINDOW_SIZE w temp).sum
        / ((dequeAppend WINDOW_SIZE w temp).length : ℚ)) ∧
      f.zScore = round2R ((((temp : ℚ) : ℝ) - ((mean (dequeAppend WINDOW_SIZE w temp) : ℚ) : ℝ))
        / Real.sqrt (((sqDevSum (dequeAppend WINDOW_SIZE w temp)
            / (((dequeAppend WINDOW_SIZE w temp).length : ℚ) - 1) : ℚ) : ℝ))) ∧
      f.temperature = temp ∧ f.timestamp = now := by
  simp only [detectCore] at h ⊢
  by_cases h1 : (dequeAppend WINDOW_SIZE w temp).length < 5
  · rw [if_pos h1] at h
    simp at h
  rw [if_neg h1] at h ⊢
  by_cases h2 : stdev (dequeAppend WINDOW_SIZE w temp) = 0
  · rw [if_pos h2] at h
    simp at h
  rw [if_neg h2] at h ⊢
  by_cases h3 : temp > TEMP_THRESHOLD ∨
      z_score (dequeAppend WINDOW_SIZE w temp) temp > ((Z_SCORE_LIMIT : ℚ) : ℝ)
  · rw [if_pos h3]
    refine ⟨_, rfl, rfl, ?_, rfl, rfl⟩
    unfold z_score stdev sampleVariance
    rfl
  · rw [if_neg h3] at h
    simp at h

/-- C6 witness: appending 120 to window [60, 61, 59, 60] flags an
anomaly, so the finding statistics theorem applies there. -/
theorem C6_finding_statistics_witness :
    ∃ f, (detectCore 0 "M3" [60, 61, 59, 60] 120).2.2 = some f ∧
      f.mean_temp = round2Q ((dequeAppend WINDOW_SIZE [60, 61, 59, 60] 120).sum
        / ((dequeAppend WINDOW_SIZE [60, 61, 59, 60] 120).length : ℚ)) ∧
      f.zScore = round2R ((((120 : ℚ) : ℝ)
          - ((mean (dequeAppend WINDOW_SIZE [60, 61, 59, 60] 120) : ℚ) : ℝ))
        / Real.sqrt (((sqDevSum (dequeAppend WINDOW_SIZE [60, 61, 59, 60] 120)
            / (((dequeAppend WINDOW_SIZE [60, 61, 59, 60] 120).length : ℚ) - 1) : ℚ) : ℝ))) ∧
      f.temperature = 120 ∧ f.timestamp = 0 :=
  C6_finding_statistics 0 "M3" [60, 61, 59, 60] 120 (by
    have hvar : sampleVariance (dequeAppend WINDOW_SIZE [60, 61, 59, 60] 120) = 1441 / 2 := by
      rw [show dequeAppend WINDOW_SIZE [60, 61, 59, 60] 120
        = [(60 : ℚ), 61, 59, 60, 120] from by decide]
      norm_num [sampleVariance, sqDevSum, mean]
    have hsd : ¬ stdev (dequeAppend WINDOW_SIZE [60, 61, 59, 60] 120) = 0 := by
      apply stdev_ne_zero_of_variance_pos
      rw [hvar]
      norm_num
    rw [detectCore_pos 0 "M3" [60, 61, 59, 60] 120 (by decide) hsd
      (Or.inl (by norm_num [TEMP_THRESHOLD]))])

theorem detectCore_fst (now : ℚ) (id : String) (w : List ℚ) (temp : ℚ) :
    (detectCore now id w temp).1 = dequeAppend WINDOW_SIZE w temp := by
  simp only [detectCore]
  split_ifs <;> rfl

/-- C2 counterexample: temperature.py pre-populates `machine_temp_data`
with only the three simulated machines, so its detect_anomaly raises
KeyError for a source_id never seen before instead of creating a window. -/
theorem C2_unseen_source_counterexample :
    Temperature.detect_anomaly Temperature.initStore 0 "CNC_Mill_1" 50
      = Except.error "KeyError" := by
  have h : Temperature.initStore "CNC_Mill_1" = none := by decide
  simp [Temperature.detect_anomaly, h]

/-- C2 amended: Warning_system.py's detect_anomaly always succeeds and
implicitly creates a new empty window for an unseen source before the
append; temperature.py's detect_anomaly succeeds exactly on machines
already present in its store and raises KeyError otherwise. -/
theorem C2_total_evaluation (st : WStore) (now : ℚ) (id : String) (temp : ℚ) :
    ((WarningSystem.detect_anomaly st now id temp).1 id
        = some (dequeAppend WINDOW_SIZE (windowOf st id) temp)) ∧
    (st id = none → windowOf st id = []) ∧
    (∀ w, st id = some w →
      Temperature.detect_anomaly st now id temp
        = Except.ok
            (fun j => if j = id then some ((detectCore now id w temp).1) else st j,
              (detectCore now id w temp).2.1, (detectCore now id w temp).2.2)) ∧
    (st id = none →
      Temperature.detect_anomaly st now id temp = Except.error "KeyError") := by
  refine ⟨?_, ?_, ?_, ?_⟩
  · simp [WarningSystem.detect_anomaly, detectCore_fst]
  · intro h
    simp [windowOf, h]
  · intro w hw
    simp [Temperature.detect_anomaly, hw]
  · intro h
    simp [Temperature.detect_anomaly, h]

/-- C2 witness: temperature.py succeeds on the pre-registered machine
Lathe_01, and Warning_system.py creates a window for the unseen machine
CNC_Mill_1. -/
theorem C2_total_evaluation_witness :
    Temperature.detect_anomaly Temperature.initStore 0 "Lathe_01" 50
      = Except.ok
          (fun j => if j = "Lathe_01" then some ((detectCore 0 "Lathe_01" [] 50).1)
              else Temperature.initStore j,
            (detectCore 0 "Lathe_01" [] 50).2.1, (detectCore 0 "Lathe_01" [] 50).2.2) ∧
    (WarningSystem.detect_anomaly Temperature.initStore 0 "CNC_Mill_1" 50).1 "CNC_Mill_1"
      = some (dequeAppend WINDOW_SIZE (windowOf Temperature.initStore "CNC_Mill_1") 50) :=
  ⟨(C2_total_evaluation Temperature.initStore 0 "Lathe_01" 50).2.2.1 [] (by decide),
    (C2_total_evaluation Temperature.initStore 0 "CNC_Mill_1" 50).1⟩

theorem dequeAppend_length_le (n : ℕ) (hn : 0 < n) (d : List ℚ) (hd : d.length ≤ n) (v : ℚ) :
    (dequeAppend n d v).length ≤ n := by
  unfold dequeAppend
  split
  · simp only [List.length_append, List.length_singleton]
    omega
  · simp only [List.length_append, List.length_singleton, List.length_tail]
    omega

theorem foldl_dequeAppend_drop (n : ℕ) (hn : 0 < n) (vs : List ℚ) :
    ∀ (w : List ℚ), w.length ≤ n →
      List.foldl (dequeAppend n) w vs = (w ++ vs).drop ((w ++ vs).length - n) := by
  induction vs with
  | nil =>
      intro w hw
      simp [Nat.sub_eq_zero_of_le hw]
  | cons v vs ih =>
      intro w hw
      rw [List.foldl_cons, ih (dequeAppend n w v) (dequeAppend_length_le n hn w hw v)]
      unfold dequeAppend
      by_cases h : w.length < n
      · rw [if_pos h]
        simp [List.append_assoc]
      · rw [if_neg h]
        have hlen : w.length = n := le_antisymm hw (not_lt.mp h)
        cases w with
        | nil =>
            simp at hlen
            omega
        | cons a w' =>
            simp only [List.tail_cons]
            have e1 : (w' ++ [v]) ++ vs = w' ++ v :: vs := by simp
            have e2 : (a :: w') ++ v :: vs = a :: (w' ++ v :: vs) := by simp
            rw [e1, e2]
            have hw' : w'.length = n - 1 := by
              simp only [List.length_cons] at hlen
              omega
            have l1 : (w' ++ v :: vs).length = n + vs.length := by
              simp only [List.length_append, List.length_cons]
              omega
            have l2 : (a :: (w' ++ v :: vs)).length = n + vs.length + 1 := by
              simp only [List.length_cons, l1]
            rw [l1, l2, Nat.add_sub_cancel_left,
              show n + vs.length + 1 - n = vs.length + 1 from by omega,
              List.drop_succ_cons]

/-- C5: starting from any in-bounds window, after folding any value
sequence through the deque append the window length never exceeds
WINDOW_SIZE and the contents are exactly the most recent WINDOW_SIZE
values in arrival order (the suffix of the appended stream). -/
theorem C5_window_fifo (w : List ℚ) (vs : List ℚ) (h : w.length ≤ WINDOW_SIZE) :
    (List.foldl (dequeAppend WINDOW_SIZE) w vs).length ≤ WINDOW_SIZE ∧
    List.foldl (dequeAppend WINDOW_SIZE) w vs
      = (w ++ vs).drop ((w ++ vs).length - WINDOW_SIZE) := by
  have he := foldl_dequeAppend_drop WINDOW_SIZE (by norm_num [WINDOW_SIZE]) vs w h
  refine ⟨?_, he⟩
  rw [he, List.length_drop]
  omega

/-- C5 witness: twelve values into an empty window leave the last ten. -/
theorem C5_window_fifo_witness :
    (List.foldl (dequeAppend WINDOW_SIZE) ([] : List ℚ)
        [1, 2, 3, 4, 5, 6, 7, 8, 9, 10, 11, 12]).length ≤ WINDOW_SIZE ∧
    List.foldl (dequeAppend WINDOW_SIZE) ([] : List ℚ) [1, 2, 3, 4, 5, 6, 7, 8, 9, 10, 11, 12]
      = (([] : List ℚ) ++ [1, 2, 3, 4, 5, 6, 7, 8, 9, 10, 11, 12]).drop
          ((([] : List ℚ) ++ [1, 2, 3, 4, 5, 6, 7, 8, 9, 10, 11, 12]).length - WINDOW_SIZE) :=
  C5_window_fifo [] [1, 2, 3, 4, 5, 6, 7, 8, 9, 10, 11, 12] (by decide)

/-- C7: the alert emitted for a finding whose input line carried a
cycle_id has exactly the six flat keys; the cycle_id that
process_simulation_output merged into the dict handed to generate_alert
is dropped and never appears in the emitted record, contradicting the
passthrough-metadata part of the spec. -/
theorem C7_cycle_metadata_dropped (f : Finding) (c : JVal) :
    ("cycle_id", c) ∈ mergeCycle (findingToDict f) c ∧
    (alertOfFinding f c).map Prod.fst
      = ["type", "machine", "temperature", "z_score", "reason", "timestamp"] ∧
    "cycle_id" ∉ (alertOfFinding f c).map Prod.fst := by
  refine ⟨?_, rfl, ?_⟩
  · simp [mergeCycle]
  · show "cycle_id" ∉ ["type", "machine", "temperature", "z_score", "reason", "timestamp"]
    decide

theorem detectCore_independent (now now' : ℚ) (id id' : String) (w : List ℚ) (temp : ℚ) :
    (detectCore now id w temp).2.1 = (detectCore now' id' w temp).2.1 ∧
    ((detectCore now id w temp).2.2).map findingCore
      = ((detectCore now' id' w temp).2.2).map findingCore := by
  simp only [detectCore]
  split_ifs <;> simp [findingCore]

/-- C10: the verdict and the machine/timestamp-independent finding fields
depend only on the stored window and the value: two calls with equal
prior windows agree regardless of store, source id, or clock. -/
theorem C10_deterministic_classification (st st' : WStore) (now now' : ℚ)
    (id id' : String) (temp : ℚ) (h : windowOf st id = windowOf st' id') :
    (WarningSystem.detect_anomaly st now id temp).2.1
        = (WarningSystem.detect_anomaly st' now' id' temp).2.1 ∧
    ((WarningSystem.detect_anomaly st now id temp).2.2).map findingCore
        = ((WarningSystem.detect_anomaly st' now' id' temp).2.2).map findingCore := by
  simp only [WarningSystem.detect_anomaly]
  rw [h]
  exact detectCore_independent now now' id id' (windowOf st' id') temp

/-- C10 witness: two unseen sources under different names and clocks get
the same classification. -/
theorem C10_deterministic_classification_witness :
    ((WarningSystem.detect_anomaly (fun _ => none) 0 "A" 5).2.1
        = (WarningSystem.detect_anomaly (fun _ => none) 1 "B" 5).2.1) ∧
    ((WarningSystem.detect_anomaly (fun _ => none) 0 "A" 5).2.2).map findingCore
        = ((WarningSystem.detect_anomaly (fun _ => none) 1 "B" 5).2.2).map findingCore :=
  C10_deterministic_classification (fun _ => none) (fun _ => none) 0 1 "A" "B" 5 rfl

theorem WarningSystem.detect_frame (st : WStore) (now : ℚ) (id : String) (temp : ℚ)
    (j : String) (h : j ≠ id) :
    (WarningSystem.detect_anomaly st now id temp).1 j = st j := by
  simp [WarningSystem.detect_anomaly, h]

theorem WarningSystem.detect_congr (st st' : WStore) (now : ℚ) (id : String) (temp : ℚ)
    (h : st id = st' id) :
    (WarningSystem.detect_anomaly st now id temp).1 id
        = (WarningSystem.detect_anomaly st' now id temp).1 id ∧
    (WarningSystem.detect_anomaly st now id temp).2
        = (WarningSystem.detect_anomaly st' now id temp).2 := by
  simp [WarningSystem.detect_anomaly, windowOf, h]

theorem runDetect_localized (j : String) (js : List (String × ℚ)) :
    ∀ (st st' : WStore), (∀ r ∈ js, r.1 = j) → st j = st' j →
      (runDetect st js).1 j = (runDetect st' js).1 j ∧
      (runDetect st js).2 = (runDetect st' js).2 := by
  induction js with
  | nil =>
      intro st st' _ h
      exact ⟨h, rfl⟩
  | cons r rs ih =>
      intro st st' hall h
      obtain ⟨id, t⟩ := r
      have hid : id = j := hall (id, t) (List.mem_cons_self _ _)
      subst hid
      have hc := WarningSystem.detect_congr st st' 0 id t h
      have hrec := ih (WarningSystem.detect_anomaly st 0 id t).1
        (WarningSystem.detect_anomaly st' 0 id t).1
        (fun r hr => hall r (List.mem_cons_of_mem _ hr)) hc.1
      simp only [runDetect]
      refine ⟨hrec.1, ?_⟩
      rw [hrec.2, hc.2]

/-- C9: a detect_anomaly call leaves every other source's stored window
unchanged, and over any interleaved stream each source's windows and
classification outputs coincide with those of the run that processes
only that source's readings. -/
theorem C9_per_source_isolation :
    (∀ (st : WStore) (now : ℚ) (id : String) (temp : ℚ) (j : String), j ≠ id →
        (WarningSystem.detect_anomaly st now id temp).1 j = st j) ∧
    (∀ (rs : List (String × ℚ)) (st : WStore) (j : String),
        (runDetect st rs).1 j = (runDetect st (rs.filter (fun r => r.1 == j))).1 j ∧
        (runDetect st rs).2.filter (fun o => o.1 == j)
          = (runDetect st (rs.filter (fun r => r.1 == j))).2) := by
  refine ⟨fun st now id temp j h => WarningSystem.detect_frame st now id temp j h, ?_⟩
  intro rs
  induction rs with
  | nil =>
      intro st j
      exact ⟨rfl, rfl⟩
  | cons r rs ih =>
      intro st j
      obtain ⟨id, t⟩ := r
      by_cases hid : id = j
      · subst hid
        have hrec := ih (WarningSystem.detect_anomaly st 0 id t).1 id
        simp only [runDetect, List.filter_cons, beq_self_eq_true, if_pos]
        exact ⟨hrec.1, by rw [hrec.2]⟩
      · have hbeq : ((id, t).1 == j) = false := by
          simp [hid]
        have hfr : (WarningSystem.detect_anomaly st 0 id t).1 j = st j :=
          WarningSystem.detect_frame st 0 id t j (fun he => hid he.symm)
        have hrec := ih (WarningSystem.detect_anomaly st 0 id t).1 j
        have hloc := runDetect_localized j (rs.filter (fun r => r.1 == j))
          (WarningSystem.detect_anomaly st 0 id t).1 st
          (fun r hr => by
            have hm := List.mem_filter.mp hr
            exact eq_of_beq hm.2)
          hfr
        simp only [runDetect, List.filter_cons, hbeq, Bool.false_eq_true, if_false]
        refine ⟨?_, ?_⟩
        · rw [hrec.1, hloc.1]
        · rw [hrec.2, hloc.2]

/-- C9 witness: a reading for machine A leaves machine B's entry
untouched, and a two-source interleaving gives source A the same window
as its solo run. -/
theorem C9_per_source_isolation_witness :
    (WarningSystem.detect_anomaly (fun _ => none) 0 "A" 5).1 "B"
        = (fun _ => none : WStore) "B" ∧
    (runDetect (fun _ => none) [("A", 1), ("B", 2)]).1 "A"
        = (runDetect (fun _ => none)
            ([("A", 1), ("B", 2)].filter (fun r => r.1 == "A"))).1 "A" :=
  ⟨C9_per_source_isolation.1 (fun _ => none) 0 "A" 5 "B" (by decide),
    (C9_per_source_isolation.2 [("A", 1), ("B", 2)] (fun _ => none) "A").1⟩
